import Mathlib

/-!
Verification development for the lms-backend authentication/authorization
core: a shallow embedding of the JWT middleware (protect, authorize,
optionalAuth), the jwt utilities (extractToken, verifyToken), the User
model with its pre-save bcrypt hook, and the auth handlers (register,
login, updateProfile), together with theorems about their behaviour.
-/

namespace LMS

/-- The closed role enumeration from src/types (UserRole). -/
inductive UserRole where
  | student
  | instructor
  | admin
  deriving DecidableEq, Repr

/-- The string value of each role, as in the TypeScript enum
(STUDENT = 'student', INSTRUCTOR = 'instructor', ADMIN = 'admin'). -/
def UserRole.toStr : UserRole → String
  | .student => "student"
  | .instructor => "instructor"
  | .admin => "admin"

/-- Parse a role string against the enum values; `none` models the
Mongoose enum validator rejecting the value. -/
def UserRole.ofStr? (s : String) : Option UserRole :=
  if s = "student" then some .student
  else if s = "instructor" then some .instructor
  else if s = "admin" then some .admin
  else none

/-- JavaScript truthiness of an optional string field of a request body:
`undefined` and the empty string are falsy, every other string is truthy. -/
def truthy : Option String → Bool
  | none => false
  | some s => !s.isEmpty

/-- The password field of a stored user record. `plain p` is an unhashed
plaintext; `hash v salt` models the string `bcrypt.hash(render v, salt)`
with the per-call salt. A value hashed exactly once from a plaintext is
`hash (plain p) salt`; applying `hash` again models an (unwanted) rehash. -/
inductive PwField where
  | plain (p : String)
  | hash (inner : PwField) (salt : Nat)
  deriving DecidableEq, Repr

/-- Modelled from the spec: the password hashing utility
`hash(plaintext) -> hash_string` (bcrypt.hash with a per-call salt);
the bcrypt library itself is external to the repository. -/
def bcryptHash (v : PwField) (salt : Nat) : PwField :=
  .hash v salt

/-- Modelled from the spec: `verify(plaintext, hash_string) -> bool`
(bcrypt.compare): true exactly when the stored value is the bcrypt hash
of the candidate; false on any mismatch or malformed stored value. -/
def bcryptCompare (candidate : String) (stored : PwField) : Bool :=
  match stored with
  | .hash (.plain p) _ => candidate == p
  | _ => false

/-- The JWT payload shape from src/types (JWTPayload): subject id, role,
email. Ids are modelled as naturals. -/
structure JWTPayload where
  id : Nat
  role : UserRole
  email : String
  deriving DecidableEq, Repr

/-- Modelled from the spec: a signed token string, abstracted as the
payload it encodes, the secret it was signed with, and whether its expiry
has passed. The jsonwebtoken library is external to the repository. -/
structure SignedToken where
  payload : JWTPayload
  secret : String
  expired : Bool
  deriving DecidableEq, Repr

/-- Modelled from the spec: `issue(payload, secret, ttl) -> token_string`
(jwt.sign); a freshly issued token is within its validity window. -/
def jwtSign (p : JWTPayload) (secret : String) : SignedToken :=
  { payload := p, secret := secret, expired := false }

/-- Modelled from the spec: `decode(token_string, secret) -> payload | invalid`
(jwt.verify): signature integrity and expiry are checked in one step and
any failure yields the single uniform invalid result `none`. -/
def jwtVerifyTok (t : SignedToken) (secret : String) : Option JWTPayload :=
  if t.secret = secret ∧ t.expired = false then some t.payload else none

/-- Case-sensitive character-by-character leading-substring test,
the semantics of JavaScript String.startsWith. -/
def leadMatch : List Char → List Char → Bool
  | [], _ => true
  | _ :: _, [] => false
  | c :: cs, d :: ds => c == d && leadMatch cs ds

/-- `startsWithStr s p` is true when `s` starts with `p`
(JavaScript `s.startsWith(p)`). -/
def startsWithStr (s p : String) : Bool :=
  leadMatch p.data s.data

/-- extractToken from the jwt utilities: `none` unless the header is
present and starts with the case-sensitive prefix "Bearer ", in which
case the 7-character prefix is removed. (A present empty header is falsy
in the source; it also fails the prefix test, so one branch covers both.) -/
def extractToken (authHeader : Option String) : Option String :=
  match authHeader with
  | none => none
  | some h => if startsWithStr h "Bearer " then some (h.drop 7) else none

/-- The observable outcome of a middleware on one request: either a
terminal JSON rejection with an HTTP status and message, or a call to the
next handler with the request identity field holding `user`. -/
inductive Outcome where
  | reject (status : Nat) (message : String)
  | next (user : Option JWTPayload)
  deriving DecidableEq, Repr

def msgNotAuthorized : String :=
  "Not authorized. Please login to access this resource."

def msgInvalidToken : String :=
  "Invalid or expired token. Please login again."

def msgAuthFailed : String := "Authentication failed"

def msgNotAuthenticated : String := "Not authenticated"

/-- protect middleware, with the verification step abstracted to the
shape of the imported verifyToken. The falsiness guard on the extracted
token covers both a missing token and an extracted empty token (the
header "Bearer " alone), each rejected 401 not-authorized before any
verification; a token failing verification rejects 401 invalid-token,
and only a verified token attaches the decoded payload and proceeds. -/
def protect (verify : String → Option JWTPayload) (hdr : Option String) : Outcome :=
  match extractToken hdr with
  | none => .reject 401 msgNotAuthorized
  | some t =>
    if t.isEmpty then .reject 401 msgNotAuthorized
    else
      match verify t with
      | none => .reject 401 msgInvalidToken
      | some d => .next (some d)

/-- The body of protect inside its try block, with extraction and
verification as arbitrary possibly-throwing computations (`Except E`). -/
def protectTry (E : Type) (ext : Except E (Option String))
    (ver : String → Except E (Option JWTPayload)) : Except E Outcome := do
  let t? ← ext
  match t? with
  | none => pure (.reject 401 msgNotAuthorized)
  | some t =>
    if t.isEmpty then pure (.reject 401 msgNotAuthorized)
    else do
      let d? ← ver t
      match d? with
      | none => pure (.reject 401 msgInvalidToken)
      | some d => pure (.next (some d))

/-- protect with its catch-all handler: any exception raised during
extraction or verification becomes a 401 "Authentication failed". -/
def protectCaught (E : Type) (ext : Except E (Option String))
    (ver : String → Except E (Option JWTPayload)) : Outcome :=
  match protectTry E ext ver with
  | .ok o => o
  | .error _ => .reject 401 msgAuthFailed

/-- The 403 message of the authorize guard:
"Access denied. This resource is only accessible to <roles joined> users." -/
def accessDeniedMsg (roles : List UserRole) : String :=
  "Access denied. This resource is only accessible to "
    ++ String.intercalate ", " (roles.map UserRole.toStr) ++ " users."

/-- authorize(...roles) guard at request time: 401 when no identity is
attached, 403 when the identity role is not in the allow-list, otherwise
proceed. -/
def authorize (roles : List UserRole) (user : Option JWTPayload) : Outcome :=
  match user with
  | none => .reject 401 msgNotAuthenticated
  | some u =>
    if roles.contains u.role then .next (some u)
    else .reject 403 (accessDeniedMsg roles)

/-- The body of optionalAuth inside its try block: attach the decoded
identity when extraction and verification both succeed, otherwise fall
through to next with no identity set. -/
def optionalAuthTry (E : Type) (ext : Except E (Option String))
    (ver : String → Except E (Option JWTPayload)) : Except E Outcome := do
  let t? ← ext
  match t? with
  | some t => do
    let d? ← ver t
    match d? with
    | some d => pure (Outcome.next (some d))
    | none => pure (Outcome.next none)
  | none => pure (Outcome.next none)

/-- optionalAuth with its catch handler, which also just proceeds with no
identity attached. The middleware never rejects. -/
def optionalAuth (E : Type) (ext : Except E (Option String))
    (ver : String → Except E (Option JWTPayload)) : Outcome :=
  match optionalAuthTry E ext ver with
  | .ok o => o
  | .error _ => .next none

/-- A stored user document, with the fields of the User schema that the
auth handlers touch. `passwordModified` models the Mongoose
isModified flag for the password path (true on a freshly built
document, cleared by save). -/
structure UserDoc where
  id : Nat
  firstName : String
  lastName : String
  email : String
  password : PwField
  passwordModified : Bool
  role : UserRole
  avatar : String
  bio : Option String
  isVerified : Bool
  deriving DecidableEq, Repr

/-- The pre-save hook of the User schema: hash the password exactly when
the password path has been modified (or the document is new), then clear
the flag; otherwise the document is saved as-is. -/
def saveDoc (d : UserDoc) (salt : Nat) : UserDoc :=
  if d.passwordModified then
    { d with password := bcryptHash d.password salt, passwordModified := false }
  else d

/-- comparePassword instance method: bcrypt.compare of the candidate
against the stored password field. -/
def comparePassword (d : UserDoc) (candidate : String) : Bool :=
  bcryptCompare candidate d.password

/-- getSignedJwtToken instance method: sign { id, role, email } of the
document with the server secret. -/
def getSignedJwtToken (d : UserDoc) (secret : String) : SignedToken :=
  jwtSign { id := d.id, role := d.role, email := d.email } secret

/-- Lowercasing of a string (the Mongoose `lowercase: true` setter of
the email path). -/
def toLowerStr (s : String) : String :=
  ⟨s.data.map Char.toLower⟩

/-- Whitespace trimming of a string (the Mongoose `trim: true` setter of
the name and email paths). -/
def trimStr (s : String) : String :=
  ⟨((s.data.dropWhile Char.isWhitespace).reverse.dropWhile
      Char.isWhitespace).reverse⟩

/-- The email normalisation of the schema (lowercase and trim setters),
applied both when a document is stored and when an email is cast in a
query filter. -/
def normEmail (e : String) : String :=
  toLowerStr (trimStr e)

/-- User.findOne({ email }): the first stored document whose email equals
the (normalised) query email. -/
def findUserByEmail (store : List UserDoc) (e : String) : Option UserDoc :=
  store.find? (fun u => u.email == normEmail e)

/-- Regular expressions over characters, used to embed the email format
validator of the User schema. The constructor chr p matches one character
satisfying p. -/
inductive Rx where
  | emp
  | eps
  | chr (p : Char → Bool)
  | cat (a b : Rx)
  | alt (a b : Rx)
  | star (a : Rx)

/-- Whether the language of a regular expression contains the empty
string. -/
def rxNullable : Rx → Bool
  | .emp => false
  | .eps => true
  | .chr _ => false
  | .cat a b => rxNullable a && rxNullable b
  | .alt a b => rxNullable a || rxNullable b
  | .star _ => true

/-- Concatenation with unit and annihilator simplification, keeping
derivatives small. -/
def catS : Rx → Rx → Rx
  | .emp, _ => .emp
  | _, .emp => .emp
  | .eps, b => b
  | a, .eps => a
  | a, b => .cat a b

/-- Alternation absorbing the empty language. -/
def altS : Rx → Rx → Rx
  | .emp, b => b
  | a, .emp => a
  | a, b => .alt a b

/-- Brzozowski derivative: the language of rxDeriv r c is the set of
strings s such that c followed by s is in the language of r. -/
def rxDeriv : Rx → Char → Rx
  | .emp, _ => .emp
  | .eps, _ => .emp
  | .chr p, c => if p c then .eps else .emp
  | .cat a b, c =>
    if rxNullable a then altS (catS (rxDeriv a c) b) (rxDeriv b c)
    else catS (rxDeriv a c) b
  | .alt a b, c => altS (rxDeriv a c) (rxDeriv b c)
  | .star a, c => catS (rxDeriv a c) (.star a)

/-- Full match of a string against a regular expression (membership of
the string in its language): the semantics of testing an anchored
JavaScript regex. -/
def rxMatch (r : Rx) (s : String) : Bool :=
  rxNullable (s.data.foldl rxDeriv r)

/-- The JavaScript word character class: ASCII letters, digits and the
underscore. -/
def wordChar (c : Char) : Bool :=
  c.isAlphanum || c == '_'

/-- One or more word characters. -/
def rxWordPlus : Rx :=
  .cat (.chr wordChar) (.star (.chr wordChar))

/-- Zero or more groups of an optional dot-or-dash separator followed by
one or more word characters. -/
def rxSepWord : Rx :=
  .star (.cat (.alt .eps (.chr (fun c => c == '.' || c == '-'))) rxWordPlus)

/-- A literal dot followed by two or three word characters. -/
def rxTld : Rx :=
  .cat (.chr (fun c => c == '.'))
    (.cat (.chr wordChar) (.cat (.chr wordChar) (.alt .eps (.chr wordChar))))

/-- The email pattern of the User schema, transcribing the anchored
regex: word-plus, then separator groups, then the at sign, then
word-plus, then separator groups, then one or more dot-TLD groups. -/
def emailRx : Rx :=
  .cat rxWordPlus (.cat rxSepWord (.cat (.chr (fun c => c == '@'))
    (.cat rxWordPlus (.cat rxSepWord (.cat rxTld (.star rxTld))))))

/-- The name path validators of the User schema: required (non-empty
after the trim setter) and maxlength 50. -/
def validName (s : String) : Bool :=
  !s.isEmpty && decide (s.length ≤ 50)

/-- The password path minlength-6 validator. Schema validation sees the
value of the password path before the pre-save hook hashes it: the
plaintext on creation. On later saves the path holds a 60-character
bcrypt hash string, which always passes the minimum length. -/
def pwMinLen : PwField → Bool
  | .plain p => decide (6 ≤ p.length)
  | .hash _ _ => true

/-- The bio path maxlength-500 validator. -/
def validBio : Option String → Bool
  | none => true
  | some b => decide (b.length ≤ 500)

/-- Document validation of the User schema, which Mongoose runs on every
save before the user pre-save hook: required and maxlength on the names,
the email format regex, the password minimum length and the bio maximum
length. The role enum validator is represented by the UserRole type
(parsed in register by UserRole.ofStr?). -/
def validUserDoc (d : UserDoc) : Bool :=
  validName d.firstName && validName d.lastName
    && rxMatch emailRx d.email && pwMinLen d.password && validBio d.bio

/-- The register request body fields the handler destructures. Absent
fields are `none`. -/
structure RegisterReq where
  firstName : Option String
  lastName : Option String
  email : Option String
  password : Option String
  role : Option String
  deriving DecidableEq, Repr

/-- The projected user view of the register response (id, firstName,
lastName, email, role, avatar); the password field is not projected. -/
structure PublicUser where
  id : Nat
  firstName : String
  lastName : String
  email : String
  role : UserRole
  avatar : String
  deriving DecidableEq, Repr

/-- The register handler response. -/
inductive RegisterRes where
  | err (status : Nat) (message : String)
  | created (user : PublicUser) (token : SignedToken)
  deriving DecidableEq, Repr

def avatarDefault : String := "https://via.placeholder.com/150"

/-- The register handler: presence validation of the four required
fields, duplicate-email check, then creation with `role || student`.
User.create runs the schema validation (role enum, name lengths, email
regex, password minlength) before the pre-save hash hook; a validation
failure throws, which the catch turns into a 500 with the store
unchanged. On success the hook hashes, a token is issued and the 201
response returned. `freshId` is the id the store assigns to the new
document and `salt` the bcrypt salt drawn by the pre-save hook. Returns
the response and the updated store. -/
def register (store : List UserDoc) (freshId salt : Nat) (secret : String)
    (req : RegisterReq) : RegisterRes × List UserDoc :=
  if !(truthy req.firstName && truthy req.lastName
       && truthy req.email && truthy req.password) then
    (.err 400 "Please provide all required fields", store)
  else
    match findUserByEmail store (req.email.getD "") with
    | some _ => (.err 400 "User with this email already exists", store)
    | none =>
      let roleStr := if truthy req.role then req.role.getD "" else "student"
      match UserRole.ofStr? roleStr with
      | none => (.err 500 "Error registering user", store)
      | some r =>
        let doc0 : UserDoc :=
          { id := freshId
            firstName := trimStr (req.firstName.getD "")
            lastName := trimStr (req.lastName.getD "")
            email := normEmail (req.email.getD "")
            password := .plain (req.password.getD "")
            passwordModified := true
            role := r
            avatar := avatarDefault
            bio := none
            isVerified := false }
        if validUserDoc doc0 then
          let doc := saveDoc doc0 salt
          let token := getSignedJwtToken doc secret
          (.created
            { id := doc.id, firstName := doc.firstName
              lastName := doc.lastName, email := doc.email, role := doc.role
              avatar := doc.avatar } token,
           store ++ [doc])
        else (.err 500 "Error registering user", store)

/-- The login request body fields. -/
structure LoginReq where
  email : Option String
  password : Option String
  deriving DecidableEq, Repr

/-- The projected user view of the login response (the register view plus
bio). -/
structure LoginView where
  id : Nat
  firstName : String
  lastName : String
  email : String
  role : UserRole
  avatar : String
  bio : Option String
  deriving DecidableEq, Repr

/-- The login handler response. -/
inductive LoginRes where
  | err (status : Nat) (message : String)
  | ok (user : LoginView) (token : SignedToken)
  deriving DecidableEq, Repr

def msgInvalidCredentials : String := "Invalid credentials"

/-- The login handler: presence validation, lookup with the password
included, and a uniform 401 both when no record matches the email and
when the password comparison fails. -/
def login (store : List UserDoc) (secret : String) (req : LoginReq) : LoginRes :=
  if !(truthy req.email && truthy req.password) then
    .err 400 "Please provide email and password"
  else
    match findUserByEmail store (req.email.getD "") with
    | none => .err 401 msgInvalidCredentials
    | some u =>
      if comparePassword u (req.password.getD "") then
        .ok { id := u.id, firstName := u.firstName, lastName := u.lastName
              email := u.email, role := u.role, avatar := u.avatar, bio := u.bio }
          (getSignedJwtToken u secret)
      else .err 401 msgInvalidCredentials

/-- The updateProfile request body fields. -/
structure UpdateReq where
  firstName : Option String
  lastName : Option String
  bio : Option String
  avatar : Option String
  deriving DecidableEq, Repr

/-- The field updates of updateProfile: firstName, lastName and avatar
are applied under a truthiness check, bio under a presence check
(bio !== undefined), so bio can be set to an explicit empty value. -/
def applyUpdate (d : UserDoc) (r : UpdateReq) : UserDoc :=
  let d := if truthy r.firstName then { d with firstName := r.firstName.getD "" } else d
  let d := if truthy r.lastName then { d with lastName := r.lastName.getD "" } else d
  let d := match r.bio with
           | some b => { d with bio := some b }
           | none => d
  if truthy r.avatar then { d with avatar := r.avatar.getD "" } else d

/-- The updateProfile handler response: 404 or the saved document. -/
inductive UpdateRes where
  | err (status : Nat) (message : String)
  | ok (user : UserDoc)
  deriving DecidableEq, Repr

/-- User.findById on the attached identity id (absent when no identity
was attached). -/
def findUserById (store : List UserDoc) (uid : Option Nat) : Option UserDoc :=
  uid.bind (fun i => store.find? (fun u => u.id == i))

/-- The updateProfile handler: load the record of the attached identity,
404 when it does not resolve, otherwise apply the partial update and
save. The save first runs the schema validation on the updated document
(for example the bio maxlength); a validation failure throws, which the
catch turns into a 500 with nothing persisted. On success the pre-save
hook runs and the handler responds 200 with the saved document. Returns
the response and the updated store. -/
def updateProfile (store : List UserDoc) (salt : Nat) (uid : Option Nat)
    (r : UpdateReq) : UpdateRes × List UserDoc :=
  match findUserById store uid with
  | none => (.err 404 "User not found", store)
  | some d =>
    let du := applyUpdate d r
    if validUserDoc du then
      let d2 := saveDoc du salt
      (.ok d2, store.map (fun u => if u.id == d.id then d2 else u))
    else (.err 500 "Error updating profile", store)

/-- A stored password field holding exactly one bcrypt hash of a
plaintext. -/
def singleHash (f : PwField) : Prop :=
  ∃ p s, f = PwField.hash (.plain p) s

/-- The credential-store invariant: every stored document holds a single
bcrypt hash of its plaintext password, with the modified flag cleared. -/
def storeInv (store : List UserDoc) : Prop :=
  ∀ d ∈ store, singleHash d.password ∧ d.passwordModified = false

/-! ## Theorems -/

theorem protect_of_extract_none (verify : String → Option JWTPayload)
    (hdr : Option String) (he : extractToken hdr = none) :
    protect verify hdr = .reject 401 msgNotAuthorized := by
  unfold protect
  rw [he]

theorem protect_of_extract_empty (verify : String → Option JWTPayload)
    (hdr : Option String) (t : String) (he : extractToken hdr = some t)
    (hemp : t.isEmpty = true) :
    protect verify hdr = .reject 401 msgNotAuthorized := by
  unfold protect
  rw [he]
  simp [hemp]

theorem protect_of_extract_some (verify : String → Option JWTPayload)
    (hdr : Option String) (t : String) (he : extractToken hdr = some t)
    (hemp : t.isEmpty = false) :
    protect verify hdr =
      match verify t with
      | none => .reject 401 msgInvalidToken
      | some d => .next (some d) := by
  unfold protect
  rw [he]
  simp [hemp]

theorem protectTry_err (E : Type) (e : E)
    (ver : String → Except E (Option JWTPayload)) :
    protectTry E (.error e) ver = .error e := rfl

theorem protectTry_ok_none (E : Type)
    (ver : String → Except E (Option JWTPayload)) :
    protectTry E (.ok none) ver = .ok (.reject 401 msgNotAuthorized) := rfl

theorem protectTry_ok_empty (E : Type) (t : String)
    (ver : String → Except E (Option JWTPayload)) (hemp : t.isEmpty = true) :
    protectTry E (.ok (some t)) ver = .ok (.reject 401 msgNotAuthorized) := by
  show (if t.isEmpty then pure (Outcome.reject 401 msgNotAuthorized)
        else Except.bind (ver t)
          (fun d? => match d? with
            | none => pure (Outcome.reject 401 msgInvalidToken)
            | some d => pure (Outcome.next (some d)))) = _
  simp [hemp]
  rfl

theorem protectTry_ok_some (E : Type) (t : String)
    (ver : String → Except E (Option JWTPayload)) (hemp : t.isEmpty = false) :
    protectTry E (.ok (some t)) ver =
      match ver t with
      | .error e => .error e
      | .ok none => .ok (.reject 401 msgInvalidToken)
      | .ok (some d) => .ok (.next (some d)) := by
  show (if t.isEmpty then pure (Outcome.reject 401 msgNotAuthorized)
        else Except.bind (ver t)
          (fun d? => match d? with
            | none => pure (Outcome.reject 401 msgInvalidToken)
            | some d => pure (Outcome.next (some d)))) = _
  rw [hemp]
  show Except.bind (ver t)
      (fun d? => match d? with
        | none => pure (Outcome.reject 401 msgInvalidToken)
        | some d => pure (Outcome.next (some d))) = _
  rcases ver t with e | _ | d <;> rfl

theorem optionalAuthTry_err (E : Type) (e : E)
    (ver : String → Except E (Option JWTPayload)) :
    optionalAuthTry E (.error e) ver = .error e := rfl

theorem optionalAuthTry_ok_none (E : Type)
    (ver : String → Except E (Option JWTPayload)) :
    optionalAuthTry E (.ok none) ver = .ok (.next none) := rfl

theorem optionalAuthTry_ok_some (E : Type) (t : String)
    (ver : String → Except E (Option JWTPayload)) :
    optionalAuthTry E (.ok (some t)) ver =
      match ver t with
      | .error e => .error e
      | .ok none => .ok (.next none)
      | .ok (some d) => .ok (.next (some d)) := by
  show Except.bind (ver t)
      (fun d? => match d? with
        | some d => pure (Outcome.next (some d))
        | none => pure (Outcome.next none)) = _
  rcases ver t with e | _ | d <;> rfl

theorem optionalAuth_of_ver_err (E : Type) (t : String)
    (ver : String → Except E (Option JWTPayload)) (e : E)
    (hv : ver t = .error e) :
    optionalAuth E (.ok (some t)) ver = .next none := by
  unfold optionalAuth
  rw [optionalAuthTry_ok_some, hv]

theorem optionalAuth_of_ver_none (E : Type) (t : String)
    (ver : String → Except E (Option JWTPayload))
    (hv : ver t = .ok none) :
    optionalAuth E (.ok (some t)) ver = .next none := by
  unfold optionalAuth
  rw [optionalAuthTry_ok_some, hv]

theorem optionalAuth_of_ver_some (E : Type) (t : String)
    (ver : String → Except E (Option JWTPayload)) (d : JWTPayload)
    (hv : ver t = .ok (some d)) :
    optionalAuth E (.ok (some t)) ver = .next (some d) := by
  unfold optionalAuth
  rw [optionalAuthTry_ok_some, hv]

/-- C3: a request whose Authorization header is absent or does not start
with the case-sensitive prefix "Bearer " is rejected 401 (not authorized)
without invoking the downstream handler, as is a request whose extracted
token is empty — the falsiness guard fires before any verification; every
request whose extracted token fails verification is answered 401 without
invoking the downstream handler (with the not-authorized message when the
token is empty and never reaches the verifier, and the invalid-token
message otherwise); only a verified non-empty token attaches the decoded
payload and calls next, and every next outcome comes from a verified
token. -/
theorem protect_extract_verify_spec (verify : String → Option JWTPayload)
    (hdr : Option String) :
    ((hdr = none ∨ ∃ h, hdr = some h ∧ startsWithStr h "Bearer " = false) →
      protect verify hdr = .reject 401 msgNotAuthorized) ∧
    (∀ t, extractToken hdr = some t → t.isEmpty = true →
      protect verify hdr = .reject 401 msgNotAuthorized) ∧
    (∀ t, extractToken hdr = some t → verify t = none →
      ∃ m, protect verify hdr = .reject 401 m) ∧
    (∀ t, extractToken hdr = some t → t.isEmpty = false → verify t = none →
      protect verify hdr = .reject 401 msgInvalidToken) ∧
    (∀ t d, extractToken hdr = some t → t.isEmpty = false →
      verify t = some d → protect verify hdr = .next (some d)) ∧
    (∀ u, protect verify hdr = .next u →
      ∃ t d, extractToken hdr = some t ∧ t.isEmpty = false ∧
        verify t = some d ∧ u = some d) := by
  refine ⟨?_, ?_, ?_, ?_, ?_, ?_⟩
  · rintro (rfl | ⟨h, rfl, hb⟩)
    · rfl
    · exact protect_of_extract_none verify (some h) (by simp [extractToken, hb])
  · intro t ht hemp
    exact protect_of_extract_empty verify hdr t ht hemp
  · intro t ht hv
    rcases hemp : t.isEmpty with _ | _
    · exact ⟨msgInvalidToken, by
        rw [protect_of_extract_some verify hdr t ht hemp, hv]⟩
    · exact ⟨msgNotAuthorized, protect_of_extract_empty verify hdr t ht hemp⟩
  · intro t ht hemp hv
    rw [protect_of_extract_some verify hdr t ht hemp, hv]
  · intro t d ht hemp hv
    rw [protect_of_extract_some verify hdr t ht hemp, hv]
  · intro u hu
    rcases he : extractToken hdr with _ | t
    · rw [protect_of_extract_none verify hdr he] at hu
      exact absurd hu (by simp)
    · rcases hemp : t.isEmpty with _ | _
      · rw [protect_of_extract_some verify hdr t he hemp] at hu
        rcases hv : verify t with _ | d <;> rw [hv] at hu
        · exact absurd hu (by simp)
        · simp only [Outcome.next.injEq] at hu
          exact ⟨t, d, rfl, hemp, hv, hu.symm⟩
      · rw [protect_of_extract_empty verify hdr t he hemp] at hu
        exact absurd hu (by simp)

theorem protect_extract_verify_spec_witness :
    protect (fun t => if t = "tok" then some ⟨1, .admin, "a@b.co"⟩ else none)
        (some "Bearer tok") = .next (some ⟨1, .admin, "a@b.co"⟩) ∧
    protect (fun _ => none) none = .reject 401 msgNotAuthorized ∧
    protect (fun _ => none) (some "bearer x") = .reject 401 msgNotAuthorized ∧
    protect (fun _ => some ⟨9, .student, "z"⟩) (some "Bearer ")
      = .reject 401 msgNotAuthorized ∧
    protect (fun _ => none) (some "Bearer bad") = .reject 401 msgInvalidToken := by
  refine ⟨?_, ?_, ?_, ?_, ?_⟩
  · exact (protect_extract_verify_spec
      (fun t => if t = "tok" then some ⟨1, .admin, "a@b.co"⟩ else none)
      (some "Bearer tok")).2.2.2.2.1 "tok" ⟨1, .admin, "a@b.co"⟩ rfl
      (by decide) rfl
  · exact (protect_extract_verify_spec (fun _ => none) none).1 (Or.inl rfl)
  · exact (protect_extract_verify_spec (fun _ => none) (some "bearer x")).1
      (Or.inr ⟨"bearer x", rfl, by decide⟩)
  · exact (protect_extract_verify_spec (fun _ => some ⟨9, .student, "z"⟩)
      (some "Bearer ")).2.1 "" rfl (by decide)
  · exact (protect_extract_verify_spec (fun _ => none)
      (some "Bearer bad")).2.2.2.1 "bad" rfl (by decide) rfl

/-- C4: the authorize guard rejects 401 when no identity is attached,
rejects 403 with the message listing the allowed roles when the attached
identity role is not in the allow-list, and calls next with the identity
otherwise. -/
theorem authorize_guard_spec (roles : List UserRole) (user : Option JWTPayload) :
    (user = none → authorize roles user = .reject 401 msgNotAuthenticated) ∧
    (∀ u, user = some u → roles.contains u.role = false →
      authorize roles user = .reject 403 (accessDeniedMsg roles)) ∧
    (∀ u, user = some u → roles.contains u.role = true →
      authorize roles user = .next (some u)) := by
  refine ⟨?_, ?_, ?_⟩
  · rintro rfl; rfl
  · rintro u rfl hr
    have h2 : u.role ∉ roles := by simpa using hr
    simp [authorize, h2]
  · rintro u rfl hr
    have h2 : u.role ∈ roles := by simpa using hr
    simp [authorize, h2]

theorem authorize_guard_spec_witness :
    authorize [.admin] none = .reject 401 msgNotAuthenticated ∧
    authorize [.admin] (some ⟨2, .student, "s@x.co"⟩)
      = .reject 403 (accessDeniedMsg [.admin]) ∧
    authorize [.admin] (some ⟨3, .admin, "a@x.co"⟩)
      = .next (some ⟨3, .admin, "a@x.co"⟩) := by
  refine ⟨?_, ?_, ?_⟩
  · exact (authorize_guard_spec [.admin] none).1 rfl
  · exact (authorize_guard_spec [.admin] (some ⟨2, .student, "s@x.co"⟩)).2.1
      _ rfl (by decide)
  · exact (authorize_guard_spec [.admin] (some ⟨3, .admin, "a@x.co"⟩)).2.2
      _ rfl (by decide)

/-- C5: every exception raised during extraction or verification inside
protect is caught and mapped to a 401 response; for every input the
middleware produces an outcome (never propagates the exception), every
rejection it produces carries status 401, and in particular it never
produces a 500. -/
theorem protect_catches_all_to_401 (E : Type) (ext : Except E (Option String))
    (ver : String → Except E (Option JWTPayload)) :
    (∀ e, protectTry E ext ver = .error e →
      protectCaught E ext ver = .reject 401 msgAuthFailed) ∧
    (∀ s m, protectCaught E ext ver = .reject s m → s = 401) ∧
    ((∃ m, protectCaught E ext ver = .reject 401 m) ∨
      ∃ u, protectCaught E ext ver = .next u) := by
  have hcase : (∃ m, protectCaught E ext ver = .reject 401 m) ∨
      (∃ u, protectCaught E ext ver = .next u) := by
    rcases ext with e | t?
    · exact Or.inl ⟨msgAuthFailed, rfl⟩
    · rcases t? with _ | t
      · exact Or.inl ⟨msgNotAuthorized, rfl⟩
      · rcases hemp : t.isEmpty with _ | _
        · rcases hv : ver t with e | _ | d
          · refine Or.inl ⟨msgAuthFailed, ?_⟩
            unfold protectCaught
            rw [protectTry_ok_some E t ver hemp, hv]
          · refine Or.inl ⟨msgInvalidToken, ?_⟩
            unfold protectCaught
            rw [protectTry_ok_some E t ver hemp, hv]
          · refine Or.inr ⟨some d, ?_⟩
            unfold protectCaught
            rw [protectTry_ok_some E t ver hemp, hv]
        · refine Or.inl ⟨msgNotAuthorized, ?_⟩
          unfold protectCaught
          rw [protectTry_ok_empty E t ver hemp]
  refine ⟨?_, ?_, hcase⟩
  · intro e he
    unfold protectCaught
    rw [he]
  · intro s m hm
    rcases hcase with ⟨m2, h2⟩ | ⟨u, h2⟩
    · rw [hm] at h2
      injection h2 with h3 h4
      try exact h3
      try exact h3.symm
    · rw [hm] at h2
      exact absurd h2 (by simp)

theorem protect_catches_all_to_401_witness :
    protectTry Unit (Except.error ()) (fun _ => Except.ok none) = Except.error () ∧
    protectCaught Unit (Except.error ()) (fun _ => Except.ok none)
      = .reject 401 msgAuthFailed := by
  exact ⟨rfl, (protect_catches_all_to_401 Unit (Except.error ())
    (fun _ => Except.ok none)).1 () rfl⟩

/-- C6: optionalAuth never sends a rejection: on every input it calls the
next handler, attaching a decoded identity exactly when extraction yields
a token and verification decodes it, and attaching no identity on any
failure (missing token, failed verification, or exception). -/
theorem optionalAuth_never_rejects (E : Type) (ext : Except E (Option String))
    (ver : String → Except E (Option JWTPayload)) :
    (∃ u, optionalAuth E ext ver = .next u) ∧
    (∀ s m, optionalAuth E ext ver ≠ .reject s m) ∧
    (∀ d, optionalAuth E ext ver = .next (some d) ↔
      ∃ t, ext = .ok (some t) ∧ ver t = .ok (some d)) := by
  have key : ∃ u, optionalAuth E ext ver = .next u ∧
      (∀ d, u = some d ↔ ∃ t, ext = .ok (some t) ∧ ver t = .ok (some d)) := by
    rcases ext with e | t?
    · exact ⟨none, rfl, fun d =>
        ⟨fun h => by simp at h, fun ⟨t, ht, _⟩ => by simp at ht⟩⟩
    · rcases t? with _ | t
      · exact ⟨none, rfl, fun d =>
          ⟨fun h => by simp at h, fun ⟨t, ht, _⟩ => by simp at ht⟩⟩
      · rcases hv : ver t with e | _ | d0
        · refine ⟨none, optionalAuth_of_ver_err E t ver e hv, fun d =>
            ⟨fun h => by simp at h, fun ⟨t2, ht, hvt⟩ => ?_⟩⟩
          cases ht
          rw [hvt] at hv
          cases hv
        · refine ⟨none, optionalAuth_of_ver_none E t ver hv, fun d =>
            ⟨fun h => by simp at h, fun ⟨t2, ht, hvt⟩ => ?_⟩⟩
          cases ht
          rw [hvt] at hv
          cases hv
        · refine ⟨some d0, optionalAuth_of_ver_some E t ver d0 hv, fun d =>
            ⟨fun h => ?_, fun ⟨t2, ht, hvt⟩ => ?_⟩⟩
          · injection h with h2
            exact ⟨t, rfl, h2 ▸ hv⟩
          · cases ht
            rw [hvt] at hv
            injection hv with h3
            injection h3 with h4
            rw [h4]
  obtain ⟨u, hu, hiff⟩ := key
  refine ⟨⟨u, hu⟩, ?_, ?_⟩
  · intro s m hm
    rw [hu] at hm
    exact absurd hm (by simp)
  · intro d
    constructor
    · intro h
      rw [hu] at h
      injection h with h2
      exact (hiff d).1 h2
    · intro hex
      rw [hu, (hiff d).2 hex]

theorem optionalAuth_never_rejects_witness :
    optionalAuth Unit (Except.ok none) (fun _ => Except.ok none) = .next none ∧
    optionalAuth Unit (Except.error ()) (fun _ => Except.ok none) = .next none ∧
    optionalAuth Unit (Except.ok (some "t"))
        (fun t => if t = "t" then Except.ok (some ⟨7, .instructor, "i@x.co"⟩)
                  else Except.ok none)
      = .next (some ⟨7, .instructor, "i@x.co"⟩) := by
  refine ⟨rfl, rfl, ?_⟩
  exact ((optionalAuth_never_rejects Unit (Except.ok (some "t"))
      (fun t => if t = "t" then Except.ok (some ⟨7, .instructor, "i@x.co"⟩)
                else Except.ok none)).2.2
    ⟨7, .instructor, "i@x.co"⟩).2 ⟨"t", rfl, rfl⟩

theorem truthy_some_iff (s : String) : truthy (some s) = true ↔ s ≠ "" := by
  constructor
  · intro ht he
    rw [he] at ht
    exact absurd ht (by decide)
  · intro hne
    have h2 : s.isEmpty = false := by
      rcases h : s.isEmpty with _ | _
      · rfl
      · exact absurd ((String.isEmpty_iff s).1 h) hne
    simp [truthy, h2]

theorem UserRole.truthy_toStr (r : UserRole) : truthy (some r.toStr) = true := by
  cases r <;> rfl

theorem UserRole.ofStr_toStr (r : UserRole) : UserRole.ofStr? r.toStr = some r := by
  cases r <;> rfl

/-- C8: a registration request whose email already has a record returns
400 with the duplicate-email message, and the credential store is
returned unchanged: no second record is created. -/
theorem register_duplicate_email_store_unchanged (store : List UserDoc)
    (freshId salt : Nat) (secret : String) (req : RegisterReq) (u : UserDoc)
    (hf : truthy req.firstName = true) (hl : truthy req.lastName = true)
    (he : truthy req.email = true) (hp : truthy req.password = true)
    (hdup : findUserByEmail store (req.email.getD "") = some u) :
    register store freshId salt secret req
      = (.err 400 "User with this email already exists", store) := by
  simp [register, hf, hl, he, hp, hdup]

theorem register_duplicate_email_store_unchanged_witness :
    register
        [{ id := 1, firstName := "Alice", lastName := "L", email := "a@b.co",
           password := .hash (.plain "secret1") 3, passwordModified := false,
           role := .student, avatar := "av", bio := none, isVerified := false }]
        2 5 "s"
        { firstName := some "Bob", lastName := some "B", email := some "a@b.co",
          password := some "pw1234", role := none }
      = (.err 400 "User with this email already exists",
         [{ id := 1, firstName := "Alice", lastName := "L", email := "a@b.co",
            password := .hash (.plain "secret1") 3, passwordModified := false,
            role := .student, avatar := "av", bio := none, isVerified := false }]) :=
  register_duplicate_email_store_unchanged
    [{ id := 1, firstName := "Alice", lastName := "L", email := "a@b.co",
       password := .hash (.plain "secret1") 3, passwordModified := false,
       role := .student, avatar := "av", bio := none, isVerified := false }]
    2 5 "s"
    { firstName := some "Bob", lastName := some "B", email := some "a@b.co",
      password := some "pw1234", role := none }
    { id := 1, firstName := "Alice", lastName := "L", email := "a@b.co",
      password := .hash (.plain "secret1") 3, passwordModified := false,
      role := .student, avatar := "av", bio := none, isVerified := false }
    (by decide) (by decide) (by decide) (by decide) (by decide)

/-- C2: for login, an unknown email and a known email with a wrong
password produce the identical response: status 401 with the same
message text "Invalid credentials". -/
theorem login_uniform_invalid_credentials (store : List UserDoc)
    (secret : String) (r1 r2 : LoginReq) (u : UserDoc)
    (h1e : truthy r1.email = true) (h1p : truthy r1.password = true)
    (h2e : truthy r2.email = true) (h2p : truthy r2.password = true)
    (h1 : findUserByEmail store (r1.email.getD "") = none)
    (h2 : findUserByEmail store (r2.email.getD "") = some u)
    (h2pw : comparePassword u (r2.password.getD "") = false) :
    login store secret r1 = .err 401 "Invalid credentials" ∧
    login store secret r2 = .err 401 "Invalid credentials" ∧
    login store secret r1 = login store secret r2 := by
  have ha : login store secret r1 = .err 401 "Invalid credentials" := by
    simp [login, h1e, h1p, h1, msgInvalidCredentials]
  have hb : login store secret r2 = .err 401 "Invalid credentials" := by
    simp [login, h2e, h2p, h2, h2pw, msgInvalidCredentials]
  exact ⟨ha, hb, ha.trans hb.symm⟩

theorem login_uniform_invalid_credentials_witness :
    login
        [{ id := 1, firstName := "Alice", lastName := "L", email := "a@b.co",
           password := .hash (.plain "secret1") 3, passwordModified := false,
           role := .student, avatar := "av", bio := none, isVerified := false }]
        "s" { email := some "nobody@b.co", password := some "whatever" }
      = .err 401 "Invalid credentials" ∧
    login
        [{ id := 1, firstName := "Alice", lastName := "L", email := "a@b.co",
           password := .hash (.plain "secret1") 3, passwordModified := false,
           role := .student, avatar := "av", bio := none, isVerified := false }]
        "s" { email := some "a@b.co", password := some "wrongpw" }
      = .err 401 "Invalid credentials" := by
  have h := login_uniform_invalid_credentials
    [{ id := 1, firstName := "Alice", lastName := "L", email := "a@b.co",
       password := .hash (.plain "secret1") 3, passwordModified := false,
       role := .student, avatar := "av", bio := none, isVerified := false }]
    "s" { email := some "nobody@b.co", password := some "whatever" }
    { email := some "a@b.co", password := some "wrongpw" }
    { id := 1, firstName := "Alice", lastName := "L", email := "a@b.co",
      password := .hash (.plain "secret1") 3, passwordModified := false,
      role := .student, avatar := "av", bio := none, isVerified := false }
    (by decide) (by decide) (by decide) (by decide)
    (by decide) (by decide) (by decide)
  exact ⟨h.1, h.2.1⟩

theorem register_success_eq (store : List UserDoc)
    (freshId salt : Nat) (secret : String) (req : RegisterReq) (r : UserRole)
    (hf : truthy req.firstName = true) (hl : truthy req.lastName = true)
    (he : truthy req.email = true) (hp : truthy req.password = true)
    (hfind : findUserByEmail store (req.email.getD "") = none)
    (hofs : UserRole.ofStr?
      (if truthy req.role then req.role.getD "" else "student") = some r)
    (hvalid : validUserDoc
      { id := freshId, firstName := trimStr (req.firstName.getD ""),
        lastName := trimStr (req.lastName.getD ""),
        email := normEmail (req.email.getD ""),
        password := .plain (req.password.getD ""), passwordModified := true,
        role := r, avatar := avatarDefault, bio := none,
        isVerified := false } = true) :
    register store freshId salt secret req =
      (.created
        { id := freshId, firstName := trimStr (req.firstName.getD ""),
          lastName := trimStr (req.lastName.getD ""),
          email := normEmail (req.email.getD ""), role := r,
          avatar := avatarDefault }
        { payload := { id := freshId, role := r,
                       email := normEmail (req.email.getD "") },
          secret := secret, expired := false },
       store ++
         [{ id := freshId, firstName := trimStr (req.firstName.getD ""),
            lastName := trimStr (req.lastName.getD ""),
            email := normEmail (req.email.getD ""),
            password := .hash (.plain (req.password.getD "")) salt,
            passwordModified := false, role := r, avatar := avatarDefault,
            bio := none, isVerified := false }]) := by
  simp [register, hf, hl, he, hp, hfind, hofs, hvalid, saveDoc,
    getSignedJwtToken, jwtSign, bcryptHash]

/-- C1 is false as stated: a role field that is present in the request
body but empty does not create the record with that role — the handler
computes role-or-student by truthiness, so the present empty value falls
back to student, contradicting "falling back to student only when
absent". -/
theorem register_role_present_empty_fallback :
    ({ firstName := some "Eve", lastName := some "M",
       email := some "eve@x.co", password := some "pw1234",
       role := some "" } : RegisterReq).role = some "" ∧
    register [] 1 5 "s"
        { firstName := some "Eve", lastName := some "M",
          email := some "eve@x.co", password := some "pw1234",
          role := some "" }
      = (.created
          { id := 1, firstName := "Eve", lastName := "M",
            email := "eve@x.co", role := .student, avatar := avatarDefault }
          { payload := { id := 1, role := .student, email := "eve@x.co" },
            secret := "s", expired := false },
         [{ id := 1, firstName := "Eve", lastName := "M",
            email := "eve@x.co",
            password := .hash (.plain "pw1234") 5, passwordModified := false,
            role := .student, avatar := avatarDefault, bio := none,
            isVerified := false }]) ∧
    ("" : String) ≠ UserRole.toStr .student := by
  refine ⟨rfl, ?_, by decide⟩
  decide

/-- C1 (amended): for a registration input that passes the schema
validators, the register handler reads the role field from the request
body; when a non-empty valid role value is present the created record,
the projected view and the issued token all carry that role — including
the elevated roles instructor and admin, with no check on the caller —
and it falls back to student when the role field is absent or empty. -/
theorem register_role_from_body (store : List UserDoc)
    (freshId salt : Nat) (secret : String) (req : RegisterReq) (r : UserRole)
    (hf : truthy req.firstName = true) (hl : truthy req.lastName = true)
    (he : truthy req.email = true) (hp : truthy req.password = true)
    (hfind : findUserByEmail store (req.email.getD "") = none)
    (hvalid : validUserDoc
      { id := freshId, firstName := trimStr (req.firstName.getD ""),
        lastName := trimStr (req.lastName.getD ""),
        email := normEmail (req.email.getD ""),
        password := .plain (req.password.getD ""), passwordModified := true,
        role := .student, avatar := avatarDefault, bio := none,
        isVerified := false } = true) :
    (req.role = some r.toStr →
      ∃ doc view tok,
        register store freshId salt secret req
          = (.created view tok, store ++ [doc]) ∧
        doc.role = r ∧ view.role = r ∧ tok.payload.role = r) ∧
    (req.role = none →
      ∃ doc view tok,
        register store freshId salt secret req
          = (.created view tok, store ++ [doc]) ∧
        doc.role = .student ∧ view.role = .student ∧
        tok.payload.role = .student) ∧
    (req.role = some "" →
      ∃ doc view tok,
        register store freshId salt secret req
          = (.created view tok, store ++ [doc]) ∧
        doc.role = .student ∧ view.role = .student ∧
        tok.payload.role = .student) := by
  refine ⟨?_, ?_, ?_⟩
  · intro hrole
    have hofs : UserRole.ofStr?
        (if truthy req.role then req.role.getD "" else "student") = some r := by
      simp [hrole, UserRole.truthy_toStr, UserRole.ofStr_toStr]
    exact ⟨_, _, _, register_success_eq store freshId salt secret req r
      hf hl he hp hfind hofs hvalid, rfl, rfl, rfl⟩
  · intro hrole
    have hofs : UserRole.ofStr?
        (if truthy req.role then req.role.getD "" else "student")
          = some .student := by
      simp [hrole, truthy, UserRole.ofStr?]
    exact ⟨_, _, _, register_success_eq store freshId salt secret req .student
      hf hl he hp hfind hofs hvalid, rfl, rfl, rfl⟩
  · intro hrole
    have he2 : truthy (some "") = false := by decide
    have hofs : UserRole.ofStr?
        (if truthy req.role then req.role.getD "" else "student")
          = some .student := by
      simp [hrole, he2, UserRole.ofStr?]
    exact ⟨_, _, _, register_success_eq store freshId salt secret req .student
      hf hl he hp hfind hofs hvalid, rfl, rfl, rfl⟩

theorem register_role_from_body_witness :
    ∃ doc view tok,
      register [] 1 5 "s"
          { firstName := some "Eve", lastName := some "M",
            email := some "eve@x.co", password := some "pw1234",
            role := some "admin" }
        = (.created view tok, [] ++ [doc]) ∧
      doc.role = .admin ∧ view.role = .admin ∧ tok.payload.role = .admin :=
  (register_role_from_body [] 1 5 "s"
    { firstName := some "Eve", lastName := some "M", email := some "eve@x.co",
      password := some "pw1234", role := some "admin" }
    .admin (by decide) (by decide) (by decide) (by decide) (by decide)
    (by decide)).1 rfl

/-- C9: a valid registration (schema validators passed) with a unique
email returns 201 created with a token that, decoded with the same
secret, has subject id equal to the created record's id; and among valid
passwords the response is independent of the password value, so neither
the plaintext password nor its hash reaches the response body. -/
theorem register_token_subject_no_password_leak (store : List UserDoc)
    (freshId salt : Nat) (secret : String) (req : RegisterReq)
    (hf : truthy req.firstName = true) (hl : truthy req.lastName = true)
    (he : truthy req.email = true) (hp : truthy req.password = true)
    (hfind : findUserByEmail store (req.email.getD "") = none)
    (hrole : req.role = none ∨ ∃ r, req.role = some (UserRole.toStr r))
    (hvalid : validUserDoc
      { id := freshId, firstName := trimStr (req.firstName.getD ""),
        lastName := trimStr (req.lastName.getD ""),
        email := normEmail (req.email.getD ""),
        password := .plain (req.password.getD ""), passwordModified := true,
        role := .student, avatar := avatarDefault, bio := none,
        isVerified := false } = true) :
    (∃ doc view tok,
      register store freshId salt secret req
        = (.created view tok, store ++ [doc]) ∧
      jwtVerifyTok tok secret = some tok.payload ∧
      tok.payload.id = doc.id ∧ view.id = doc.id) ∧
    (∀ p1 p2, truthy (some p1) = true → truthy (some p2) = true →
      6 ≤ p1.length → 6 ≤ p2.length →
      (register store freshId salt secret { req with password := some p1 }).1
        = (register store freshId salt secret
            { req with password := some p2 }).1) := by
  have hofs : ∃ rr, UserRole.ofStr?
      (if truthy req.role then req.role.getD "" else "student") = some rr := by
    rcases hrole with hnone | ⟨r, hs⟩
    · rw [hnone]
      exact ⟨.student, rfl⟩
    · rw [hs, UserRole.truthy_toStr]
      simp only [if_true, Option.getD_some]
      exact ⟨r, UserRole.ofStr_toStr r⟩
  obtain ⟨rr, hofs⟩ := hofs
  have hcomp := hvalid
  simp only [validUserDoc, Bool.and_eq_true] at hcomp
  obtain ⟨⟨⟨⟨hn1, hn2⟩, hem⟩, hpw⟩, hb⟩ := hcomp
  constructor
  · refine ⟨_, _, _, register_success_eq store freshId salt secret req rr
      hf hl he hp hfind hofs hvalid, ?_, rfl, rfl⟩
    simp [jwtVerifyTok]
  · intro p1 p2 hp1 hp2 hl1 hl2
    have hval1 : validUserDoc
        { id := freshId, firstName := trimStr (req.firstName.getD ""),
          lastName := trimStr (req.lastName.getD ""),
          email := normEmail (req.email.getD ""),
          password := .plain p1, passwordModified := true,
          role := .student, avatar := avatarDefault, bio := none,
          isVerified := false } = true := by
      simp only [validUserDoc, Bool.and_eq_true]
      exact ⟨⟨⟨⟨hn1, hn2⟩, hem⟩, by simp [pwMinLen, hl1]⟩, hb⟩
    have hval2 : validUserDoc
        { id := freshId, firstName := trimStr (req.firstName.getD ""),
          lastName := trimStr (req.lastName.getD ""),
          email := normEmail (req.email.getD ""),
          password := .plain p2, passwordModified := true,
          role := .student, avatar := avatarDefault, bio := none,
          isVerified := false } = true := by
      simp only [validUserDoc, Bool.and_eq_true]
      exact ⟨⟨⟨⟨hn1, hn2⟩, hem⟩, by simp [pwMinLen, hl2]⟩, hb⟩
    rw [register_success_eq store freshId salt secret
          { req with password := some p1 } rr hf hl he hp1 hfind hofs hval1,
        register_success_eq store freshId salt secret
          { req with password := some p2 } rr hf hl he hp2 hfind hofs hval2]

theorem register_token_subject_no_password_leak_witness :
    ∃ doc view tok,
      register [] 1 5 "s"
          { firstName := some "Eve", lastName := some "M",
            email := some "eve@x.co", password := some "pw1234", role := none }
        = (.created view tok, [] ++ [doc]) ∧
      jwtVerifyTok tok "s" = some tok.payload ∧
      tok.payload.id = doc.id ∧ view.id = doc.id :=
  (register_token_subject_no_password_leak [] 1 5 "s"
    { firstName := some "Eve", lastName := some "M", email := some "eve@x.co",
      password := some "pw1234", role := none }
    (by decide) (by decide) (by decide) (by decide) (by decide)
    (Or.inl rfl) (by decide)).1

theorem applyUpdate_eq (d : UserDoc) (r : UpdateReq) :
    applyUpdate d r =
      { d with
        firstName := if truthy r.firstName then r.firstName.getD ""
                     else d.firstName,
        lastName := if truthy r.lastName then r.lastName.getD ""
                    else d.lastName,
        bio := match r.bio with | some b => some b | none => d.bio,
        avatar := if truthy r.avatar then r.avatar.getD "" else d.avatar } := by
  unfold applyUpdate
  rcases hf : truthy r.firstName with _ | _ <;>
    rcases hl : truthy r.lastName with _ | _ <;>
      rcases hb : r.bio with _ | b <;>
        rcases ha : truthy r.avatar with _ | _ <;>
          simp [hf, hl, hb, ha]

/-- C7 is false as stated: a firstName field that is present in the input
but holds the empty string is not applied (the handler checks truthiness,
not presence, for firstName), so the stored record keeps its old
firstName. -/
theorem updateProfile_present_empty_not_applied :
    ({ firstName := some "", lastName := none, bio := none, avatar := none }
        : UpdateReq).firstName = some "" ∧
    (updateProfile
        [{ id := 1, firstName := "Alice", lastName := "L", email := "a@b.co",
           password := .hash (.plain "secret1") 3, passwordModified := false,
           role := .student, avatar := "av", bio := none, isVerified := false }]
        0 (some 1)
        { firstName := some "", lastName := none, bio := none,
          avatar := none }).2
      = [{ id := 1, firstName := "Alice", lastName := "L", email := "a@b.co",
           password := .hash (.plain "secret1") 3, passwordModified := false,
           role := .student, avatar := "av", bio := none,
           isVerified := false }] ∧
    ("Alice" : String) ≠ "" := by decide

/-- C7 (amended): updateProfile applies firstName, lastName and avatar
exactly when each is present and non-empty (truthiness check), applies
bio exactly when present — including the explicit empty value — leaves
absent (or empty-string, for the truthiness-checked fields) inputs
untouched, and leaves every other stored field (id, email, password,
modified flag, role, verification flag) unchanged; the save after the
update does not rehash the password. -/
theorem updateProfile_partial_update (d : UserDoc) (r : UpdateReq)
    (salt : Nat) :
    (∀ s, r.firstName = some s → s ≠ "" → (applyUpdate d r).firstName = s) ∧
    ((r.firstName = none ∨ r.firstName = some "") →
      (applyUpdate d r).firstName = d.firstName) ∧
    (∀ s, r.lastName = some s → s ≠ "" → (applyUpdate d r).lastName = s) ∧
    ((r.lastName = none ∨ r.lastName = some "") →
      (applyUpdate d r).lastName = d.lastName) ∧
    (∀ s, r.bio = some s → (applyUpdate d r).bio = some s) ∧
    (r.bio = none → (applyUpdate d r).bio = d.bio) ∧
    (∀ s, r.avatar = some s → s ≠ "" → (applyUpdate d r).avatar = s) ∧
    ((r.avatar = none ∨ r.avatar = some "") →
      (applyUpdate d r).avatar = d.avatar) ∧
    (applyUpdate d r).id = d.id ∧
    (applyUpdate d r).email = d.email ∧
    (applyUpdate d r).password = d.password ∧
    (applyUpdate d r).passwordModified = d.passwordModified ∧
    (applyUpdate d r).role = d.role ∧
    (applyUpdate d r).isVerified = d.isVerified ∧
    (d.passwordModified = false →
      saveDoc (applyUpdate d r) salt = applyUpdate d r) := by
  rw [applyUpdate_eq]
  refine ⟨?_, ?_, ?_, ?_, ?_, ?_, ?_, ?_, rfl, rfl, rfl, rfl, rfl, rfl, ?_⟩
  · intro s hs hne
    simp [hs, (truthy_some_iff s).2 hne]
  · have he2 : truthy (some "") = false := by decide
    rintro (hn | hee)
    · simp [hn, truthy]
    · simp [hee, he2]
  · intro s hs hne
    simp [hs, (truthy_some_iff s).2 hne]
  · have he2 : truthy (some "") = false := by decide
    rintro (hn | hee)
    · simp [hn, truthy]
    · simp [hee, he2]
  · intro s hs
    simp [hs]
  · intro hn
    simp [hn]
  · intro s hs hne
    simp [hs, (truthy_some_iff s).2 hne]
  · have he2 : truthy (some "") = false := by decide
    rintro (hn | hee)
    · simp [hn, truthy]
    · simp [hee, he2]
  · intro hmod
    simp [saveDoc, hmod]

theorem updateProfile_partial_update_witness :
    (applyUpdate
        { id := 1, firstName := "Alice", lastName := "L", email := "a@b.co",
          password := .hash (.plain "secret1") 3, passwordModified := false,
          role := .student, avatar := "av", bio := some "old",
          isVerified := false }
        { firstName := some "", lastName := some "New", bio := some "",
          avatar := none }).firstName = "Alice" ∧
    (applyUpdate
        { id := 1, firstName := "Alice", lastName := "L", email := "a@b.co",
          password := .hash (.plain "secret1") 3, passwordModified := false,
          role := .student, avatar := "av", bio := some "old",
          isVerified := false }
        { firstName := some "", lastName := some "New", bio := some "",
          avatar := none }).lastName = "New" ∧
    (applyUpdate
        { id := 1, firstName := "Alice", lastName := "L", email := "a@b.co",
          password := .hash (.plain "secret1") 3, passwordModified := false,
          role := .student, avatar := "av", bio := some "old",
          isVerified := false }
        { firstName := some "", lastName := some "New", bio := some "",
          avatar := none }).bio = some "" ∧
    (applyUpdate
        { id := 1, firstName := "Alice", lastName := "L", email := "a@b.co",
          password := .hash (.plain "secret1") 3, passwordModified := false,
          role := .student, avatar := "av", bio := some "old",
          isVerified := false }
        { firstName := some "", lastName := some "New", bio := some "",
          avatar := none }).password = .hash (.plain "secret1") 3 := by
  obtain ⟨c1, c2, c3, c4, c5, c6, c7, c8, c9, c10, c11, c12, c13, c14, c15⟩ :=
    updateProfile_partial_update
      { id := 1, firstName := "Alice", lastName := "L", email := "a@b.co",
        password := .hash (.plain "secret1") 3, passwordModified := false,
        role := .student, avatar := "av", bio := some "old",
        isVerified := false }
      { firstName := some "", lastName := some "New", bio := some "",
        avatar := none } 5
  exact ⟨c2 (Or.inr rfl), c3 "New" rfl (by decide), c5 "" rfl, c11⟩

/-- C10: the pre-save hook hashes the password exactly when the password
path was modified on that save (true on creation); a document saved with
an unmodified password is returned bit-for-bit, so a stored single hash
is never rehashed; consequently both register and updateProfile preserve
the store invariant that every record holds exactly one bcrypt hash of
its plaintext password. -/
theorem presave_hash_iff_modified (d : UserDoc) (salt : Nat)
    (store : List UserDoc) (freshId : Nat) (secret : String)
    (req : RegisterReq) (uid : Option Nat) (r : UpdateReq) :
    (d.passwordModified = true →
      (saveDoc d salt).password = bcryptHash d.password salt) ∧
    (d.passwordModified = false → saveDoc d salt = d) ∧
    (singleHash d.password → d.passwordModified = false →
      (saveDoc d salt).password = d.password ∧
      singleHash (saveDoc d salt).password) ∧
    (storeInv store → storeInv (register store freshId salt secret req).2) ∧
    (storeInv store → storeInv (updateProfile store salt uid r).2) := by
  refine ⟨?_, ?_, ?_, ?_, ?_⟩
  · intro h
    simp [saveDoc, h]
  · intro h
    simp [saveDoc, h]
  · intro hs h
    have h2 : saveDoc d salt = d := by simp [saveDoc, h]
    rw [h2]
    exact ⟨rfl, hs⟩
  · intro hinv
    unfold register
    split
    · exact hinv
    · split
      · exact hinv
      · dsimp only
        split
        · exact hinv
        · split
          · intro x hx
            rcases List.mem_append.1 hx with hx2 | hx2
            · exact hinv x hx2
            · rcases List.mem_singleton.1 hx2 with rfl
              refine ⟨⟨req.password.getD "", salt, ?_⟩, ?_⟩
              · simp [saveDoc, bcryptHash]
              · simp [saveDoc]
          · exact hinv
  · intro hinv
    unfold updateProfile
    rcases hfind : findUserById store uid with _ | d2
    · exact hinv
    · dsimp only
      split
      case isFalse => exact hinv
      intro x hx
      simp only [List.mem_map] at hx
      obtain ⟨u, hu, rfl⟩ := hx
      by_cases hid : (u.id == d2.id) = true
      · have hd2 : d2 ∈ store := by
          unfold findUserById at hfind
          rcases uid with _ | i
          · cases hfind
          · exact List.mem_of_find?_eq_some hfind
        have h2 := hinv d2 hd2
        have hpw : (applyUpdate d2 r).password = d2.password := by
          rw [applyUpdate_eq]
        have hflag : (applyUpdate d2 r).passwordModified
            = d2.passwordModified := by
          rw [applyUpdate_eq]
        have hsave : saveDoc (applyUpdate d2 r) salt = applyUpdate d2 r := by
          simp [saveDoc, hflag, h2.2]
        simp only [if_pos hid, hsave]
        exact ⟨hpw ▸ h2.1, hflag.trans h2.2⟩
      · simp only [if_neg hid]
        exact hinv u hu

theorem presave_hash_iff_modified_witness :
    (saveDoc
        { id := 1, firstName := "A", lastName := "B", email := "a@b.co",
          password := .plain "pw1234", passwordModified := true,
          role := .student, avatar := "av", bio := none, isVerified := false }
        5).password
      = bcryptHash (.plain "pw1234") 5 ∧
    saveDoc
        { id := 1, firstName := "A", lastName := "B", email := "a@b.co",
          password := .hash (.plain "pw1234") 5, passwordModified := false,
          role := .student, avatar := "av", bio := none, isVerified := false }
        7
      = { id := 1, firstName := "A", lastName := "B", email := "a@b.co",
          password := .hash (.plain "pw1234") 5, passwordModified := false,
          role := .student, avatar := "av", bio := none,
          isVerified := false } := by
  constructor
  · exact (presave_hash_iff_modified
      { id := 1, firstName := "A", lastName := "B", email := "a@b.co",
        password := .plain "pw1234", passwordModified := true,
        role := .student, avatar := "av", bio := none, isVerified := false }
      5 [] 0 "s"
      { firstName := none, lastName := none, email := none, password := none,
        role := none }
      none
      { firstName := none, lastName := none, bio := none,
        avatar := none }).1 rfl
  · exact (presave_hash_iff_modified
      { id := 1, firstName := "A", lastName := "B", email := "a@b.co",
        password := .hash (.plain "pw1234") 5, passwordModified := false,
        role := .student, avatar := "av", bio := none, isVerified := false }
      7 [] 0 "s"
      { firstName := none, lastName := none, email := none, password := none,
        role := none }
      none
      { firstName := none, lastName := none, bio := none,
        avatar := none }).2.1 rfl

end LMS
